import Mathlib

/-!
Verification of the monitoring/anomaly-detection core of an uptime bot.

The development shallowly embeds the Python source:
* `robust_stats`, `detect_anomaly` from `src/utils.py`;
* the per-check state machine `check_api` from `src/scheduler.py`
  (hysteresis thresholds, incident lifecycle, the ML anomaly branch,
  mute handling, notification emission);
* the request retry loop from `src/scheduler.py` lines 55-66;
* the incident table operations `create_incident` / `end_incident`
  from `src/database.py`.

Machine floats are modelled as exact rationals; wall-clock instants are
rationals (seconds since an arbitrary epoch).  The database tables that
`check_api` touches for one target are modelled as explicit lists; the
current per-target row of `monitored_apis` is the `Target` structure.
Each claim from the specification is stated and settled as a theorem
below the definitions.
-/

namespace ApiMonitor

/-- Configuration constants consumed by the monitoring core
(`src/config.py`, class `Settings`).  Only the fields the core reads are
modelled; floats become exact rationals. -/
structure Settings where
  FAILURE_THRESHOLD : ℕ
  RECOVERY_THRESHOLD : ℕ
  REQUEST_RETRIES : ℕ
  REQUEST_BACKOFF : ℚ
  ML_ENABLED : Bool
  ANOMALY_COOLDOWN_MINUTES : ℚ
  ANOMALY_M : ℕ
  ANOMALY_N : ℕ
  ANOMALY_SENSITIVITY : ℚ
  ANOMALY_PCT_FACTOR : ℚ
deriving Repr, DecidableEq

/-! ## Robust statistics (`src/utils.py`, `robust_stats`, lines 32-58) -/

/-- `statistics.median`: middle element of the ascending sort for odd
length, mean of the two middle elements for even length. -/
def medianQ (l : List ℚ) : ℚ :=
  let s := List.insertionSort (· ≤ ·) l
  let n := l.length
  if n % 2 = 1 then s.getD (n / 2) 0
  else (s.getD (n / 2 - 1) 0 + s.getD (n / 2) 0) / 2

/-- Result record of `robust_stats` (the Python dict with keys
`median`, `mad`, `ewma`, `p95`, `ucl`). -/
structure Stats where
  median : ℚ
  mad : ℚ
  ewma : ℚ
  p95 : ℚ
  ucl : ℚ
deriving Repr, DecidableEq

/-- The EWMA loop of `robust_stats`: seeded with the first sample, then
`ewma = 0.3 * v + 0.7 * ewma` over the remaining samples left to right. -/
def ewmaLoop (vals : List ℚ) : ℚ :=
  match vals with
  | [] => 0
  | v :: rest => rest.foldl (fun e x => (3 / 10) * x + (7 / 10) * e) v

/-- `robust_stats(values)` from `src/utils.py` lines 32-58.
`int(math.ceil(0.95 * n) - 1)` is the zero-based P95 index; the Python
`max(0, ...)` / `min(len - 1, ...)` clamps are kept verbatim. -/
def robust_stats (values : List ℤ) : Stats :=
  if values = [] then ⟨0, 0, 0, 0, 0⟩
  else
    let vq : List ℚ := values.map (fun x : ℤ => (x : ℚ))
    let med := medianQ vq
    let mad := medianQ (vq.map (fun v => |v - med|))
    let ewma := ewmaLoop vq
    let ucl := med + 3 * (14826 / 10000) * mad
    let vs := List.insertionSort (· ≤ ·) vq
    let idx := min (vq.length - 1) (max 0 (Nat.ceil ((95 : ℚ) / 100 * vq.length) - 1))
    ⟨med, mad, ewma, vs.getD idx 0, ucl⟩

/-- `detect_anomaly(value, ucl)` from `src/utils.py` lines 60-66: fires
iff the threshold is positive and the value strictly exceeds it; the
score is the excess. -/
def detect_anomaly (value : ℤ) (ucl : ℚ) : Bool × ℚ :=
  if ucl ≤ 0 then (false, 0)
  else if (value : ℚ) > ucl then (true, (value : ℚ) - ucl)
  else (false, 0)

/-! ## Data model (`src/database.py` tables, restricted to one target) -/

/-- One row of `check_history` for the target (`log_check_to_history`
always writes an integer `response_time_ms`, `-1` when unmeasured). -/
structure CheckHistoryEntry where
  is_ok : Bool
  response_time_ms : ℤ
deriving Repr, DecidableEq

/-- One row of `incidents` for the target. `end_time = none` means the
incident is open. -/
structure Incident where
  start_time : ℚ
  end_time : Option ℚ
deriving Repr, DecidableEq

/-- One row of `anomaly_events` for the target (`log_anomaly_event`). -/
structure AnomalyRecord where
  timestamp : ℚ
  response_time_ms : ℤ
  score : ℤ
deriving Repr, DecidableEq

/-- The target's `monitored_apis` row, restricted to the fields
`check_api` reads or writes.  `anomaly_sensitivity` / `anomaly_m` /
`anomaly_n` are the per-target overrides read through
`getattr(api, ..., settings default)`; `none` models an absent / NULL
column value. -/
structure Target where
  is_active : Bool
  is_up : Bool
  consecutive_failures : ℕ
  consecutive_successes : ℕ
  incident_start_time : Option ℚ
  check_interval : ℚ
  notifications_muted : Bool
  mute_until : Option ℚ
  anomaly_alerts_enabled : Bool
  anomaly_sensitivity : Option ℚ
  anomaly_m : Option ℕ
  anomaly_n : Option ℕ
deriving Repr, DecidableEq

/-- Everything `check_api` reads/writes in the database for one target id:
the target row (`none` when `get_api_by_id` finds nothing), the check
history (oldest first), the incident rows, the anomaly-event rows
(oldest first) and the `ucl_ms` of the most recent `ml_metrics` row
(`none` when there is no metric row or its `ucl_ms` is NULL). -/
structure DBState where
  target : Option Target
  history : List CheckHistoryEntry
  incidents : List Incident
  anomalies : List AnomalyRecord
  latest_ucl_ms : Option ℤ
deriving Repr, DecidableEq

/-- Notification events `check_api` can emit; the source sends the
corresponding templated text to every subscriber chat id. -/
inductive NotificationEvent where
  | down
  | recovered
  | anomaly
deriving Repr, DecidableEq

/-! ## Helpers shared by the anomaly branch -/

/-- `get_recent_history_points(api_id, limit)`: the last `limit` history
rows in chronological order. -/
def recentPoints (hist : List CheckHistoryEntry) (limit : ℕ) : List CheckHistoryEntry :=
  hist.drop (hist.length - limit)

/-- The comprehension `[int(h.response_time_ms) for h in recent if
h.response_time_ms and h.response_time_ms > 0]`: positive recorded
latencies, successes and failures alike. -/
def positiveVals (pts : List CheckHistoryEntry) : List ℤ :=
  (pts.filter (fun h => decide (0 < h.response_time_ms))).map (fun h => h.response_time_ms)

/-- Python's `getattr(api, field, default) or default` for a float
field: an absent or zero override falls back to the global default. -/
def effOr (o : Option ℚ) (dflt : ℚ) : ℚ :=
  match o with
  | none => dflt
  | some x => if x = 0 then dflt else x

/-- Same fallback for the integer fields `anomaly_m` / `anomaly_n`. -/
def effOrN (o : Option ℕ) (dflt : ℕ) : ℕ :=
  match o with
  | none => dflt
  | some x => if x = 0 then dflt else x

/-- Python `int(...)` truncation toward zero on a rational. -/
def pyTrunc (q : ℚ) : ℤ :=
  if 0 ≤ q then Int.floor q else Int.ceil q

/-- The anomaly threshold of `check_api` lines 109-121:
`max(ucl_ms * sensitivity, p95(last 50 positive latencies) * PCT_FACTOR)`.
`histAfter` is the history including the row just logged for the current
check. -/
def effectiveThreshold (S : Settings) (api : Target) (histAfter : List CheckHistoryEntry)
    (ucl_ms : ℤ) : ℚ :=
  let sens := effOr api.anomaly_sensitivity S.ANOMALY_SENSITIVITY
  let base_thr := (ucl_ms : ℚ) * sens
  let vals := positiveVals (recentPoints histAfter 50)
  let p_thr := (robust_stats vals).p95 * S.ANOMALY_PCT_FACTOR
  max base_thr p_thr

/-- The m-of-n counter of `check_api` lines 132-139: how many of the
last `max(n, 1)` history rows have a nonzero latency strictly above the
threshold (again with no success filter). -/
def overCount (histAfter : List CheckHistoryEntry) (n : ℕ) (thr : ℚ) : ℕ :=
  ((recentPoints histAfter (max n 1)).filter
    (fun h => decide (h.response_time_ms ≠ 0) && decide (thr < (h.response_time_ms : ℚ)))).length

/-- Cooldown scaling of `check_api` lines 147-148: the deviation ratio
is `(latency - thr) / max(1.0, thr)`. -/
def cooldownScale (latency : ℤ) (thr : ℚ) : ℚ :=
  let over_ratio := ((latency : ℚ) - thr) / max 1 thr
  if 1 / 2 < over_ratio then 1 / 2
  else if 1 / 4 < over_ratio then 3 / 4
  else 1

/-- `get_last_anomaly_time`: timestamp of the newest anomaly row. -/
def lastAnomalyTime (anoms : List AnomalyRecord) : Option ℚ :=
  anoms.getLast?.map (fun a => a.timestamp)

/-- `too_soon` of `check_api` lines 144-149: with no previous anomaly
event it stays `false`; otherwise the elapsed time is compared against
the scaled cooldown. -/
def tooSoon (S : Settings) (now : ℚ) (lastTs : Option ℚ) (latency : ℤ) (thr : ℚ) : Bool :=
  match lastTs with
  | none => false
  | some ts => decide (now - ts < S.ANOMALY_COOLDOWN_MINUTES * 60 * cooldownScale latency thr)

/-! ## Mute bookkeeping (`check_api` lines 36-43 and the `muted` tests) -/

/-- Guard of line 37: the mute flag is set, `mute_until` is non-null and
has already passed. -/
def muteExpired (api : Target) (now : ℚ) : Bool :=
  api.notifications_muted &&
    (match api.mute_until with
     | some t => decide (t ≤ now)
     | none => false)

/-- Lines 37-43: auto-unmute on expiry (persisted and mirrored on the
in-memory row). -/
def refreshMute (api : Target) (now : ℚ) : Target :=
  if muteExpired api now then
    { api with notifications_muted := false, mute_until := none }
  else api

/-- The repeated test `muted = api.notifications_muted and
(api.mute_until is None or api.mute_until > now_dt)` (lines 158, 200,
226). -/
def isMuted (api : Target) (now : ℚ) : Bool :=
  api.notifications_muted &&
    (match api.mute_until with
     | none => true
     | some t => decide (now < t))

/-! ## Notification sends

Each send site in the source is a loop over subscriber chat ids wrapped
in its own `try: ... except: pass`, guarded by `if not muted`.  The
claims are about event emission, so a send block is modelled at event
granularity: `sendOk = false` means the messaging call raises (the
exception is swallowed exactly where the source swallows it). -/

/-- The messaging call: delivers the event or raises. -/
def sendBlock (sendOk : Bool) (ev : NotificationEvent) : Except Unit (List NotificationEvent) :=
  if sendOk then Except.ok [ev] else Except.error ()

/-- A mute-guarded send site: first component is the event the code
attempts to emit, second the events actually delivered. -/
def trySendEvent (sendOk muted : Bool) (ev : NotificationEvent) :
    List NotificationEvent × List NotificationEvent :=
  if muted then ([], [])
  else ([ev],
    match sendBlock sendOk ev with
    | Except.ok l => l
    | Except.error _ => [])

/-! ## The per-check step (`check_api`, `src/scheduler.py` lines 26-234) -/

/-- Probe outcome handed to the state machine: the classification and
latency computed by lines 49-85 (`is_currently_ok`, `response_time_ms`). -/
structure CheckOutcome where
  is_ok : Bool
  response_time_ms : ℤ
deriving Repr, DecidableEq

/-- Output of the ML anomaly branch (lines 104-173): anomaly rows
appended, notification events attempted and delivered.  Everything in
the branch is wrapped in `try: ... except: pass`, and the internal
`raise Exception("m-of-n suppression")` lands in that handler, so a
suppressed candidate leaves no trace. -/
structure AnomalyResult where
  records : List AnomalyRecord
  events : List NotificationEvent
  delivered : List NotificationEvent
deriving Repr, DecidableEq

/-- The ML anomaly branch of `check_api` (lines 104-173).  Guards in
order: `ML_ENABLED`, `response_time_ms >= 0`, success, a latest metric
row with truthy (nonzero, non-null) `ucl_ms`, `anomaly_alerts_enabled`;
then candidate detection, the m-of-n count, the scaled cooldown, and
finally the event log plus the mute-guarded notification loop. -/
def anomalyStep (S : Settings) (now : ℚ) (api : Target)
    (histAfter : List CheckHistoryEntry) (latestUcl : Option ℤ)
    (anoms : List AnomalyRecord) (res : CheckOutcome) (muted : Bool) (sendOk : Bool) :
    AnomalyResult :=
  if S.ML_ENABLED = true ∧ 0 ≤ res.response_time_ms ∧ res.is_ok = true then
    match latestUcl with
    | none => ⟨[], [], []⟩
    | some u =>
      if u ≠ 0 ∧ api.anomaly_alerts_enabled = true then
        let thr := effectiveThreshold S api histAfter u
        let ad := detect_anomaly res.response_time_ms thr
        if ad.1 then
          let m := effOrN api.anomaly_m S.ANOMALY_M
          let n := effOrN api.anomaly_n S.ANOMALY_N
          if overCount histAfter n thr < m then ⟨[], [], []⟩
          else if tooSoon S now (lastAnomalyTime anoms) res.response_time_ms thr then
            ⟨[], [], []⟩
          else
            let sd := trySendEvent sendOk muted NotificationEvent.anomaly
            ⟨[⟨now, res.response_time_ms, pyTrunc ad.2⟩], sd.1, sd.2⟩
        else ⟨[], [], []⟩
      else ⟨[], [], []⟩
  else ⟨[], [], []⟩

/-- Result of the hysteresis part of `check_api` (lines 175-234). -/
structure TransitionResult where
  target : Target
  incidents : List Incident
  events : List NotificationEvent
  delivered : List NotificationEvent
deriving Repr, DecidableEq

/-- `end_incident`'s row update: close the first incident row matching
the given start time that is still open. -/
def closeFirstOpen : List Incident → ℚ → ℚ → List Incident
  | [], _, _ => []
  | inc :: rest, st, endT =>
    if inc.start_time = st ∧ inc.end_time = none then
      { inc with end_time := some endT } :: rest
    else inc :: closeFirstOpen rest st endT

/-- `end_incident(api_id, start_time, end_time)` from `src/database.py`
lines 178-188; a null start time matches no row (the `start_time` column
is non-null). -/
def end_incident (incs : List Incident) (startT : Option ℚ) (endT : ℚ) : List Incident :=
  match startT with
  | none => incs
  | some st => closeFirstOpen incs st endT

/-- Hysteresis and incident bookkeeping of `check_api` lines 175-234,
applied to the (mute-refreshed) target row.  All counter / state fields
are collected in `update_data` and written by the final
`update_api_status`; the branch structure below mirrors the source. -/
def transitionStep (S : Settings) (now : ℚ) (api : Target) (incs : List Incident)
    (is_ok : Bool) (muted : Bool) (sendOk : Bool) : TransitionResult :=
  if is_ok then
    let cs := api.consecutive_successes + 1
    if api.is_up = false ∧ S.RECOVERY_THRESHOLD ≤ cs then
      match api.incident_start_time with
      | none =>
        -- Line 186 `incident_end_time - api.incident_start_time` raises on a
        -- null start time: the final `update_api_status` never runs, so the
        -- target row and incident table stay unchanged (`end_incident` on
        -- line 184 matched no row), and no recovery message is sent.
        ⟨api, incs, [], []⟩
      | some ist =>
        let incs' := closeFirstOpen incs ist now
        let sd := trySendEvent sendOk muted NotificationEvent.recovered
        ⟨{ api with
            consecutive_failures := 0,
            consecutive_successes := cs,
            is_up := true,
            incident_start_time := none }, incs', sd.1, sd.2⟩
    else
      ⟨{ api with consecutive_failures := 0, consecutive_successes := cs }, incs, [], []⟩
  else
    let cf := api.consecutive_failures + 1
    if api.is_up = true ∧ S.FAILURE_THRESHOLD ≤ cf then
      -- Line 217: backdate the incident start to
      -- `now - check_interval * (consecutive_failures - 1)`.
      let startT := now - api.check_interval * ((cf : ℚ) - 1)
      let sd := trySendEvent sendOk muted NotificationEvent.down
      ⟨{ api with
          consecutive_successes := 0,
          consecutive_failures := cf,
          is_up := false,
          incident_start_time := some startT },
        incs ++ [⟨startT, none⟩], sd.1, sd.2⟩
    else
      ⟨{ api with consecutive_successes := 0, consecutive_failures := cf }, incs, [], []⟩

/-- Post-state and emitted notifications of one `check_api` call. -/
structure StepOutput where
  db : DBState
  events : List NotificationEvent
  delivered : List NotificationEvent
deriving Repr, DecidableEq

/-- One call of `check_api(bot, api_id)` (`src/scheduler.py` lines
26-234) given the probe outcome `res`.  A missing or inactive target
returns immediately (lines 30-32); otherwise the mute state is
refreshed, the check is appended to history (line 87), the anomaly
branch runs on the extended history, and the hysteresis update closes
the call. -/
def check_api (S : Settings) (now : ℚ) (db : DBState) (res : CheckOutcome)
    (sendOk : Bool) : StepOutput :=
  match db.target with
  | none => ⟨db, [], []⟩
  | some api0 =>
    if api0.is_active = true then
      let api := refreshMute api0 now
      let muted := isMuted api now
      let hist1 := db.history ++ [⟨res.is_ok, res.response_time_ms⟩]
      let ar := anomalyStep S now api hist1 db.latest_ucl_ms db.anomalies res muted sendOk
      let tr := transitionStep S now api db.incidents res.is_ok muted sendOk
      ⟨⟨some tr.target, hist1, tr.incidents, db.anomalies ++ ar.records, db.latest_ucl_ms⟩,
        ar.events ++ tr.events, ar.delivered ++ tr.delivered⟩
    else ⟨db, [], []⟩

/-- A sequence of checks processed by `check_api` (each with its wall
clock instant), notifications succeeding. -/
def runChecks (S : Settings) (db : DBState) (inputs : List (ℚ × CheckOutcome)) : DBState :=
  inputs.foldl (fun d p => (check_api S p.1 d p.2 true).db) db

/-! ## State invariant -/

/-- The open rows of the incident table. -/
def openIncidents (incs : List Incident) : List Incident :=
  incs.filter (fun i => i.end_time.isNone)

/-- Consistency of a target row with its incident table: while up, the
failure counter is below the failure threshold, no incident start time
is recorded and no incident is open; while down, the success counter is
below the recovery threshold and exactly one incident is open, whose
start time is the recorded `incident_start_time`. -/
def goodPair (S : Settings) (t : Target) (incs : List Incident) : Prop :=
  (t.is_up = true → t.consecutive_failures < S.FAILURE_THRESHOLD ∧
    t.incident_start_time = none ∧ openIncidents incs = []) ∧
  (t.is_up = false → t.consecutive_successes < S.RECOVERY_THRESHOLD ∧
    ∃ st, t.incident_start_time = some st ∧ openIncidents incs = [⟨st, none⟩])

/-- Consistency of a database state.  This holds for a freshly created
target (up, zero counters, empty tables) and is preserved by
`check_api`. -/
def goodDB (S : Settings) (db : DBState) : Prop :=
  match db.target with
  | none => True
  | some t => goodPair S t db.incidents

/-! ## The request/retry loop (`check_api` lines 49-85) -/

/-- What one `client.send` attempt does: raise a transient
`httpx.TimeoutException` / `httpx.TransportError`, or return a response
with a status code and (when parsed) the presence of all configured JSON
keys. -/
inductive AttemptResult where
  | transientError
  | response (status : ℕ) (keysPresent : Bool)
deriving Repr, DecidableEq

/-- The retry loop of lines 58-66, started at attempt index `i` with the
given number of loop iterations left.  Returns (attempts actually made,
backoff sleeps performed, response if any); `none` means the transient
error was re-raised on the last attempt. -/
def retryFrom (out : ℕ → AttemptResult) (backoff : ℚ) (i : ℕ) :
    ℕ → ℕ × List ℚ × Option (ℕ × Bool)
  | 0 => (0, [], none)
  | remaining + 1 =>
    match out i with
    | AttemptResult.response s k => (1, [], some (s, k))
    | AttemptResult.transientError =>
      if remaining = 0 then (1, [], none)
      else
        let r' := retryFrom out backoff (i + 1) remaining
        (r'.1 + 1, backoff * 2 ^ i :: r'.2.1, r'.2.2)

/-- `for attempt in range(max_retries): ...` with backoff
`backoff * 2 ** attempt` between consecutive attempts. -/
def retryLoop (out : ℕ → AttemptResult) (backoff : ℚ) (maxRetries : ℕ) :
    ℕ × List ℚ × Option (ℕ × Bool) :=
  retryFrom out backoff 0 maxRetries

/-- Classification of one probe (`check_api` lines 49-85): a transient
error surviving the retry loop, a status mismatch (line 71), missing
JSON keys (line 74), or success — always exactly one `CheckResult`. -/
inductive ProbeResult where
  | ok
  | failTransient
  | failStatusMismatch
  | failMissingKeys
deriving Repr, DecidableEq

/-- One probe execution: run the retry loop, then validate status code
and JSON keys on the response.  Validation failures raise `ValueError`
outside the loop, hence are never retried. -/
def probeCheck (expectedStatus : ℕ) (jsonKeysRequired : Bool) (out : ℕ → AttemptResult)
    (backoff : ℚ) (maxRetries : ℕ) : ℕ × List ℚ × ProbeResult :=
  match retryLoop out backoff maxRetries with
  | (a, sl, none) => (a, sl, ProbeResult.failTransient)
  | (a, sl, some (status, keysPresent)) =>
    if status ≠ expectedStatus then (a, sl, ProbeResult.failStatusMismatch)
    else if jsonKeysRequired ∧ keysPresent = false then (a, sl, ProbeResult.failMissingKeys)
    else (a, sl, ProbeResult.ok)

/-! ## Spec-side definitions used for refinement comparisons

The spec describes the P95 window and the m-of-n window as ranging over
*successful* samples and the cooldown ratio as divided by the plain
threshold.  The following definitions follow the spec's words; the
corresponding claims compare them against the source-derived
definitions above. -/

/-- Spec wording: positive latencies of SUCCESSFUL checks only. -/
def positiveOkVals (pts : List CheckHistoryEntry) : List ℤ :=
  (pts.filter (fun h => h.is_ok && decide (0 < h.response_time_ms))).map
    (fun h => h.response_time_ms)

/-- Spec wording of the anomaly threshold: P95 over the last 50
successful samples. -/
def effectiveThreshold_specOkOnly (S : Settings) (api : Target)
    (histAfter : List CheckHistoryEntry) (ucl_ms : ℤ) : ℚ :=
  let sens := effOr api.anomaly_sensitivity S.ANOMALY_SENSITIVITY
  let base_thr := (ucl_ms : ℚ) * sens
  let vals := positiveOkVals (recentPoints histAfter 50)
  let p_thr := (robust_stats vals).p95 * S.ANOMALY_PCT_FACTOR
  max base_thr p_thr

/-- Spec wording of the m-of-n count: successful samples among the last
`n` that exceed the threshold. -/
def overCount_specOkOnly (histAfter : List CheckHistoryEntry) (n : ℕ) (thr : ℚ) : ℕ :=
  ((recentPoints histAfter (max n 1)).filter
    (fun h => h.is_ok && decide (thr < (h.response_time_ms : ℚ)))).length

/-- Spec wording of the cooldown scale: ratio `(latency - thr) / thr`. -/
def cooldownScale_spec (latency : ℤ) (thr : ℚ) : ℚ :=
  let over_ratio := ((latency : ℚ) - thr) / thr
  if 1 / 2 < over_ratio then 1 / 2
  else if 1 / 4 < over_ratio then 3 / 4
  else 1

/-- Spec wording of P95: the element at 1-indexed rank `ceil(0.95·n)` of
the ascending sorted sample list, clamped to the last element. -/
def p95_spec (values : List ℤ) : ℚ :=
  let vs := List.insertionSort (· ≤ ·) (values.map (fun x : ℤ => (x : ℚ)))
  vs.getD (min (Nat.ceil ((95 : ℚ) / 100 * values.length)) values.length - 1) 0

/-- Spec wording of the EWMA recurrence: from the given seed,
`ewma_i = 0.3·x_i + 0.7·ewma_(i-1)` in arrival order. -/
def ewma_spec : ℚ → List ℚ → ℚ
  | e, [] => e
  | e, x :: rest => ewma_spec ((3 / 10) * x + (7 / 10) * e) rest

/-! ## Concrete sample data for closed instantiations -/

/-- Spec-default configuration: `FAILURE_THRESHOLD=3`,
`RECOVERY_THRESHOLD=2`, 2 retries, backoff 0.5 s, ML on, 30 min
cooldown, `m=3`, `n=5`, sensitivity 1.5, pct factor 1. -/
def sampleSettings : Settings :=
  ⟨3, 2, 2, 1 / 2, true, 30, 3, 5, 3 / 2, 1⟩

/-- A freshly created active target (defaults of `MonitoredAPI`):
up, zero counters, no incident, 60 s interval, unmuted. -/
def sampleTarget : Target :=
  ⟨true, true, 0, 0, none, 60, false, none, true, none, none, none⟩

/-- Database state right after the sample target is created. -/
def sampleDB : DBState := ⟨some sampleTarget, [], [], [], none⟩

/-- The sample target two failures into an outage, one check away from
the `FAILURE_THRESHOLD = 3` transition. -/
def failingTarget : Target := { sampleTarget with consecutive_failures := 2 }

/-- The failing target with notifications muted indefinitely. -/
def failingMutedTarget : Target :=
  { failingTarget with notifications_muted := true, mute_until := none }

/-- Settings with percentile factor 0.5, used to compare the code's P95
window against the spec's successful-only wording. -/
def cex4Settings : Settings := ⟨3, 2, 2, 1 / 2, true, 30, 3, 5, 3 / 2, 1 / 2⟩

/-- Target with sensitivity overridden to 1. -/
def cex4Target : Target := { sampleTarget with anomaly_sensitivity := some 1 }

/-- History whose failed check carries a large positive latency; the
trailing entry is the current successful check. -/
def cex4Hist : List CheckHistoryEntry := [⟨false, 1000⟩, ⟨true, 100⟩, ⟨true, 150⟩]

/-- Settings with percentile factor 0.1 for the m-of-n comparison. -/
def cex5Settings : Settings := ⟨3, 2, 2, 1 / 2, true, 30, 3, 5, 3 / 2, 1 / 10⟩

/-- Target with sensitivity overridden to 1 (defaults `m=3`, `n=5`). -/
def cex5Target : Target := { sampleTarget with anomaly_sensitivity := some 1 }

/-- Last five checks: a failed check with latency 500 and two slow
successes; only two SUCCESSFUL samples exceed the threshold 100, but
three positive samples do. -/
def cex5Hist : List CheckHistoryEntry :=
  [⟨false, 500⟩, ⟨true, 50⟩, ⟨true, 50⟩, ⟨true, 500⟩, ⟨true, 500⟩]

/-- Settings with percentile factor 0, 40 min cooldown. -/
def cex6Settings : Settings := ⟨3, 2, 2, 1 / 2, true, 40, 3, 5, 3 / 2, 0⟩

/-- Target with sensitivity 0.5 and `m = n = 1`, driving the effective
threshold below 1 ms. -/
def cex6Target : Target :=
  { sampleTarget with
      anomaly_sensitivity := some (1 / 2),
      anomaly_m := some 1,
      anomaly_n := some 1 }

/-- A single successful 1 ms check (the current one). -/
def cex6Hist : List CheckHistoryEntry := [⟨true, 1⟩]

/-- One previous anomaly event at time 0. -/
def cex6Anoms : List AnomalyRecord := [⟨0, 1, 0⟩]

/-- Settings with percentile factor 0 used in the m-of-n witness. -/
def debounceSettings : Settings := ⟨3, 2, 2, 1 / 2, true, 30, 3, 5, 3 / 2, 0⟩

/-- Database with a baseline (`ucl_ms = 100`) and no history yet. -/
def debounceDB : DBState := ⟨some sampleTarget, [], [], [], some 100⟩

/-! # Theorems -/

/-- Evaluation rule: the ceiling of `0.95 * n` over the rationals is the
natural-number expression `(95 * n + 99) / 100`. -/
theorem natCeil_ninetyfive (n : ℕ) :
    Nat.ceil ((95 : ℚ) / 100 * n) = (95 * n + 99) / 100 := by
  have hmod := Nat.div_add_mod (95 * n + 99) 100
  have hlt : (95 * n + 99) % 100 < 100 := Nat.mod_lt _ (by norm_num)
  set q := (95 * n + 99) / 100 with hq
  set r := (95 * n + 99) % 100 with hr
  rcases Nat.eq_zero_or_pos n with hn | hn
  · subst hn; simp [hq]
  · have hq0 : q ≠ 0 := by
      intro h
      rw [h] at hmod
      omega
    have hq1 : 1 ≤ q := Nat.one_le_iff_ne_zero.mpr hq0
    have hcast : (100 : ℚ) * q + r = 95 * n + 99 := by exact_mod_cast hmod
    have hrQ : (r : ℚ) ≤ 99 := by exact_mod_cast Nat.lt_succ_iff.mp hlt
    have hrQ0 : (0 : ℚ) ≤ r := by positivity
    rw [Nat.ceil_eq_iff hq0]
    constructor
    · rw [div_mul_eq_mul_div, lt_div_iff₀ (by norm_num : (0:ℚ) < 100)]
      rw [Nat.cast_sub hq1]
      push_cast
      nlinarith
    · rw [div_mul_eq_mul_div, div_le_iff₀ (by norm_num : (0:ℚ) < 100)]
      nlinarith

/-! ## Basic lemmas about the step components -/

@[simp] theorem refreshMute_is_active (a : Target) (now : ℚ) :
    (refreshMute a now).is_active = a.is_active := by
  unfold refreshMute; split <;> rfl

@[simp] theorem refreshMute_is_up (a : Target) (now : ℚ) :
    (refreshMute a now).is_up = a.is_up := by
  unfold refreshMute; split <;> rfl

@[simp] theorem refreshMute_consecutive_failures (a : Target) (now : ℚ) :
    (refreshMute a now).consecutive_failures = a.consecutive_failures := by
  unfold refreshMute; split <;> rfl

@[simp] theorem refreshMute_consecutive_successes (a : Target) (now : ℚ) :
    (refreshMute a now).consecutive_successes = a.consecutive_successes := by
  unfold refreshMute; split <;> rfl

@[simp] theorem refreshMute_incident_start_time (a : Target) (now : ℚ) :
    (refreshMute a now).incident_start_time = a.incident_start_time := by
  unfold refreshMute; split <;> rfl

@[simp] theorem refreshMute_check_interval (a : Target) (now : ℚ) :
    (refreshMute a now).check_interval = a.check_interval := by
  unfold refreshMute; split <;> rfl

@[simp] theorem refreshMute_anomaly_alerts_enabled (a : Target) (now : ℚ) :
    (refreshMute a now).anomaly_alerts_enabled = a.anomaly_alerts_enabled := by
  unfold refreshMute; split <;> rfl

@[simp] theorem refreshMute_anomaly_sensitivity (a : Target) (now : ℚ) :
    (refreshMute a now).anomaly_sensitivity = a.anomaly_sensitivity := by
  unfold refreshMute; split <;> rfl

@[simp] theorem refreshMute_anomaly_m (a : Target) (now : ℚ) :
    (refreshMute a now).anomaly_m = a.anomaly_m := by
  unfold refreshMute; split <;> rfl

@[simp] theorem refreshMute_anomaly_n (a : Target) (now : ℚ) :
    (refreshMute a now).anomaly_n = a.anomaly_n := by
  unfold refreshMute; split <;> rfl

@[simp] theorem effectiveThreshold_refreshMute (S : Settings) (a : Target) (now : ℚ)
    (hist : List CheckHistoryEntry) (u : ℤ) :
    effectiveThreshold S (refreshMute a now) hist u = effectiveThreshold S a hist u := by
  unfold effectiveThreshold
  rw [refreshMute_anomaly_sensitivity]

theorem openIncidents_append (a b : List Incident) :
    openIncidents (a ++ b) = openIncidents a ++ openIncidents b := by
  simp [openIncidents, List.filter_append]

@[simp] theorem openIncidents_nil : openIncidents [] = [] := rfl

theorem openIncidents_cons_open (i : Incident) (l : List Incident)
    (h : i.end_time = none) :
    openIncidents (i :: l) = i :: openIncidents l := by
  simp [openIncidents, List.filter_cons, h]

theorem openIncidents_cons_closed (i : Incident) (l : List Incident)
    (h : i.end_time ≠ none) :
    openIncidents (i :: l) = openIncidents l := by
  rcases he : i.end_time with _ | t
  · exact absurd he h
  · simp [openIncidents, List.filter_cons, he]

/-- When the incident table has exactly one open row `⟨st, none⟩`,
`closeFirstOpen` closes precisely that row and leaves every other row
untouched. -/
theorem closeFirstOpen_of_unique (incs : List Incident) (st endT : ℚ)
    (h : openIncidents incs = [⟨st, none⟩]) :
    ∃ pre post, incs = pre ++ ⟨st, none⟩ :: post ∧
      closeFirstOpen incs st endT = pre ++ ⟨st, some endT⟩ :: post ∧
      openIncidents pre = [] ∧ openIncidents post = [] := by
  induction incs with
  | nil => simp [openIncidents] at h
  | cons inc rest ih =>
    by_cases hopen : inc.end_time = none
    · rw [openIncidents_cons_open inc rest hopen] at h
      have h1 : inc = ⟨st, none⟩ := (List.cons_eq_cons.mp h).1
      have h2 : openIncidents rest = [] := (List.cons_eq_cons.mp h).2
      refine ⟨[], rest, ?_, ?_, rfl, h2⟩
      · simp [h1]
      · unfold closeFirstOpen
        rw [if_pos ⟨by rw [h1], hopen⟩]
        simp [h1]
    · rw [openIncidents_cons_closed inc rest hopen] at h
      obtain ⟨pre, post, hdec, hclose, hpre, hpost⟩ := ih h
      refine ⟨inc :: pre, post, by simp [hdec], ?_, ?_, hpost⟩
      · unfold closeFirstOpen
        rw [if_neg (by rintro ⟨-, he⟩; exact hopen he)]
        simp [hclose]
      · rw [openIncidents_cons_closed inc pre hopen, hpre]

/-- Closing the unique open incident leaves no open incident. -/
theorem openIncidents_closeFirstOpen (incs : List Incident) (st endT : ℚ)
    (h : openIncidents incs = [⟨st, none⟩]) :
    openIncidents (closeFirstOpen incs st endT) = [] := by
  obtain ⟨pre, post, -, hclose, hpre, hpost⟩ := closeFirstOpen_of_unique incs st endT h
  rw [hclose, openIncidents_append, hpre,
    openIncidents_cons_closed _ _ (by simp), hpost, List.nil_append]

theorem trySendEvent_fst (sendOk muted : Bool) (ev : NotificationEvent) :
    (trySendEvent sendOk muted ev).1 = if muted then [] else [ev] := by
  unfold trySendEvent
  split <;> rfl

/-! ## Branch characterizations of the hysteresis step -/

theorem transitionStep_success_up (S : Settings) (now : ℚ) (api : Target)
    (incs : List Incident) (muted sendOk : Bool) (hup : api.is_up = true) :
    transitionStep S now api incs true muted sendOk =
      ⟨{ api with
          consecutive_failures := 0,
          consecutive_successes := api.consecutive_successes + 1 }, incs, [], []⟩ := by
  unfold transitionStep
  simp [hup]

theorem transitionStep_success_below (S : Settings) (now : ℚ) (api : Target)
    (incs : List Incident) (muted sendOk : Bool) (hdn : api.is_up = false)
    (hlt : api.consecutive_successes + 1 < S.RECOVERY_THRESHOLD) :
    transitionStep S now api incs true muted sendOk =
      ⟨{ api with
          consecutive_failures := 0,
          consecutive_successes := api.consecutive_successes + 1 }, incs, [], []⟩ := by
  unfold transitionStep
  simp [hdn, Nat.not_le.mpr hlt]

theorem transitionStep_recover (S : Settings) (now : ℚ) (api : Target)
    (incs : List Incident) (muted sendOk : Bool) (st : ℚ) (hdn : api.is_up = false)
    (hge : S.RECOVERY_THRESHOLD ≤ api.consecutive_successes + 1)
    (hst : api.incident_start_time = some st) :
    transitionStep S now api incs true muted sendOk =
      ⟨{ api with
          consecutive_failures := 0,
          consecutive_successes := api.consecutive_successes + 1,
          is_up := true,
          incident_start_time := none },
        closeFirstOpen incs st now,
        (trySendEvent sendOk muted NotificationEvent.recovered).1,
        (trySendEvent sendOk muted NotificationEvent.recovered).2⟩ := by
  unfold transitionStep
  simp [hdn, hge, hst]

theorem transitionStep_recover_missing_start (S : Settings) (now : ℚ) (api : Target)
    (incs : List Incident) (muted sendOk : Bool) (hdn : api.is_up = false)
    (hge : S.RECOVERY_THRESHOLD ≤ api.consecutive_successes + 1)
    (hst : api.incident_start_time = none) :
    transitionStep S now api incs true muted sendOk = ⟨api, incs, [], []⟩ := by
  unfold transitionStep
  simp [hdn, hge, hst]

theorem transitionStep_fail_down (S : Settings) (now : ℚ) (api : Target)
    (incs : List Incident) (muted sendOk : Bool) (hdn : api.is_up = false) :
    transitionStep S now api incs false muted sendOk =
      ⟨{ api with
          consecutive_successes := 0,
          consecutive_failures := api.consecutive_failures + 1 }, incs, [], []⟩ := by
  unfold transitionStep
  simp [hdn]

theorem transitionStep_fail_below (S : Settings) (now : ℚ) (api : Target)
    (incs : List Incident) (muted sendOk : Bool) (hup : api.is_up = true)
    (hlt : api.consecutive_failures + 1 < S.FAILURE_THRESHOLD) :
    transitionStep S now api incs false muted sendOk =
      ⟨{ api with
          consecutive_successes := 0,
          consecutive_failures := api.consecutive_failures + 1 }, incs, [], []⟩ := by
  unfold transitionStep
  simp [hup, Nat.not_le.mpr hlt]

theorem transitionStep_go_down (S : Settings) (now : ℚ) (api : Target)
    (incs : List Incident) (muted sendOk : Bool) (hup : api.is_up = true)
    (hge : S.FAILURE_THRESHOLD ≤ api.consecutive_failures + 1) :
    transitionStep S now api incs false muted sendOk =
      ⟨{ api with
          consecutive_successes := 0,
          consecutive_failures := api.consecutive_failures + 1,
          is_up := false,
          incident_start_time :=
            some (now - api.check_interval * ((api.consecutive_failures + 1 : ℕ) - 1 : ℚ)) },
        incs ++ [⟨now - api.check_interval * ((api.consecutive_failures + 1 : ℕ) - 1 : ℚ), none⟩],
        (trySendEvent sendOk muted NotificationEvent.down).1,
        (trySendEvent sendOk muted NotificationEvent.down).2⟩ := by
  unfold transitionStep
  simp [hup, hge]

/-! ## `check_api` unfolding lemmas -/

theorem check_api_no_target (S : Settings) (now : ℚ) (db : DBState) (res : CheckOutcome)
    (sendOk : Bool) (htgt : db.target = none) :
    check_api S now db res sendOk = ⟨db, [], []⟩ := by
  unfold check_api
  rw [htgt]

theorem check_api_inactive (S : Settings) (now : ℚ) (db : DBState) (res : CheckOutcome)
    (sendOk : Bool) (api0 : Target) (htgt : db.target = some api0)
    (hact : api0.is_active = false) :
    check_api S now db res sendOk = ⟨db, [], []⟩ := by
  unfold check_api
  rw [htgt]
  simp [hact]

theorem check_api_active (S : Settings) (now : ℚ) (db : DBState) (res : CheckOutcome)
    (sendOk : Bool) (api0 : Target) (htgt : db.target = some api0)
    (hact : api0.is_active = true) :
    check_api S now db res sendOk =
      ⟨⟨some (transitionStep S now (refreshMute api0 now) db.incidents res.is_ok
            (isMuted (refreshMute api0 now) now) sendOk).target,
        db.history ++ [⟨res.is_ok, res.response_time_ms⟩],
        (transitionStep S now (refreshMute api0 now) db.incidents res.is_ok
            (isMuted (refreshMute api0 now) now) sendOk).incidents,
        db.anomalies ++ (anomalyStep S now (refreshMute api0 now)
            (db.history ++ [⟨res.is_ok, res.response_time_ms⟩]) db.latest_ucl_ms
            db.anomalies res (isMuted (refreshMute api0 now) now) sendOk).records,
        db.latest_ucl_ms⟩,
       (anomalyStep S now (refreshMute api0 now)
            (db.history ++ [⟨res.is_ok, res.response_time_ms⟩]) db.latest_ucl_ms
            db.anomalies res (isMuted (refreshMute api0 now) now) sendOk).events ++
         (transitionStep S now (refreshMute api0 now) db.incidents res.is_ok
            (isMuted (refreshMute api0 now) now) sendOk).events,
       (anomalyStep S now (refreshMute api0 now)
            (db.history ++ [⟨res.is_ok, res.response_time_ms⟩]) db.latest_ucl_ms
            db.anomalies res (isMuted (refreshMute api0 now) now) sendOk).delivered ++
         (transitionStep S now (refreshMute api0 now) db.incidents res.is_ok
            (isMuted (refreshMute api0 now) now) sendOk).delivered⟩ := by
  unfold check_api
  rw [htgt]
  simp [hact]

/-! ## Invariant preservation -/

theorem transitionStep_preserves (S : Settings) (hF : 1 ≤ S.FAILURE_THRESHOLD)
    (hR : 1 ≤ S.RECOVERY_THRESHOLD) (now : ℚ) (api : Target) (incs : List Incident)
    (is_ok muted sendOk : Bool) (h : goodPair S api incs) :
    goodPair S (transitionStep S now api incs is_ok muted sendOk).target
      (transitionStep S now api incs is_ok muted sendOk).incidents := by
  obtain ⟨hup, hdn⟩ := h
  cases hok : is_ok with
  | true =>
    cases hu : api.is_up with
    | true =>
      rw [transitionStep_success_up S now api incs muted sendOk hu]
      obtain ⟨hcf, hist, hopen⟩ := hup hu
      exact ⟨fun _ => ⟨hF, hist, hopen⟩, fun hc => by simp [hu] at hc⟩
    | false =>
      obtain ⟨hcs, st, hst, hopen⟩ := hdn hu
      by_cases hth : S.RECOVERY_THRESHOLD ≤ api.consecutive_successes + 1
      · rw [transitionStep_recover S now api incs muted sendOk st hu hth hst]
        refine ⟨fun _ => ⟨hF, rfl, openIncidents_closeFirstOpen incs st now hopen⟩,
          fun hc => by simp at hc⟩
      · rw [transitionStep_success_below S now api incs muted sendOk hu (Nat.not_le.mp hth)]
        exact ⟨fun hc => by simp [hu] at hc,
          fun _ => ⟨Nat.not_le.mp hth, st, hst, hopen⟩⟩
  | false =>
    cases hu : api.is_up with
    | true =>
      obtain ⟨hcf, hist, hopen⟩ := hup hu
      by_cases hth : S.FAILURE_THRESHOLD ≤ api.consecutive_failures + 1
      · rw [transitionStep_go_down S now api incs muted sendOk hu hth]
        refine ⟨fun hc => by simp at hc, fun _ => ⟨hR, _, rfl, ?_⟩⟩
        rw [openIncidents_append, hopen,
          openIncidents_cons_open _ _ rfl, List.nil_append]
        rfl
      · rw [transitionStep_fail_below S now api incs muted sendOk hu (Nat.not_le.mp hth)]
        exact ⟨fun _ => ⟨Nat.not_le.mp hth, hist, hopen⟩, fun hc => by simp [hu] at hc⟩
    | false =>
      rw [transitionStep_fail_down S now api incs muted sendOk hu]
      obtain ⟨hcs, st, hst, hopen⟩ := hdn hu
      exact ⟨fun hc => by simp [hu] at hc, fun _ => ⟨hR, st, hst, hopen⟩⟩

/-- `check_api` preserves the consistency invariant. -/
theorem goodDB_check_api (S : Settings) (hF : 1 ≤ S.FAILURE_THRESHOLD)
    (hR : 1 ≤ S.RECOVERY_THRESHOLD) (now : ℚ) (db : DBState) (res : CheckOutcome)
    (sendOk : Bool) (h : goodDB S db) :
    goodDB S (check_api S now db res sendOk).db := by
  cases htgt : db.target with
  | none =>
    rw [check_api_no_target S now db res sendOk htgt]
    exact h
  | some api0 =>
    cases hact : api0.is_active with
    | false =>
      rw [check_api_inactive S now db res sendOk api0 htgt hact]
      exact h
    | true =>
      rw [check_api_active S now db res sendOk api0 htgt hact]
      have hpair : goodPair S api0 db.incidents := by
        unfold goodDB at h
        rw [htgt] at h
        exact h
      have hpair' : goodPair S (refreshMute api0 now) db.incidents := by
        unfold goodPair at hpair ⊢
        simpa using hpair
      exact transitionStep_preserves S hF hR now (refreshMute api0 now) db.incidents
        res.is_ok (isMuted (refreshMute api0 now) now) sendOk hpair'

/-- Consistency holds along any run of checks. -/
theorem goodDB_runChecks (S : Settings) (hF : 1 ≤ S.FAILURE_THRESHOLD)
    (hR : 1 ≤ S.RECOVERY_THRESHOLD) (db : DBState) (inputs : List (ℚ × CheckOutcome))
    (h : goodDB S db) : goodDB S (runChecks S db inputs) := by
  induction inputs generalizing db with
  | nil => exact h
  | cons p rest ih =>
    exact ih _ (goodDB_check_api S hF hR p.1 db p.2 true h)

/-! ## C1: hysteresis transition characterization -/

/-- C1: for every target and every sequence of check outcomes processed
by `check_api`, the target transitions UP→DOWN exactly when, while it is
up, the consecutive-failure counter (reset to zero by every success)
reaches `FAILURE_THRESHOLD`, and DOWN→UP exactly when, while it is down,
the consecutive-success counter (reset to zero by every failure) reaches
`RECOVERY_THRESHOLD`; no shorter run of failures or successes causes a
transition, and further failures while down or successes while up cause
no transition. -/
theorem hysteresis_transitions (S : Settings) (hF : 1 ≤ S.FAILURE_THRESHOLD)
    (hR : 1 ≤ S.RECOVERY_THRESHOLD) (db0 : DBState) (inputs : List (ℚ × CheckOutcome))
    (hinit : goodDB S db0) (now : ℚ) (res : CheckOutcome) (sendOk : Bool) (api : Target)
    (htgt : (runChecks S db0 inputs).target = some api) (hact : api.is_active = true) :
    ∃ api', (check_api S now (runChecks S db0 inputs) res sendOk).db.target = some api' ∧
      ((api.is_up = true ∧ api'.is_up = false) ↔
        (res.is_ok = false ∧ api.is_up = true ∧
          api.consecutive_failures + 1 = S.FAILURE_THRESHOLD)) ∧
      ((api.is_up = false ∧ api'.is_up = true) ↔
        (res.is_ok = true ∧ api.is_up = false ∧
          api.consecutive_successes + 1 = S.RECOVERY_THRESHOLD)) ∧
      (res.is_ok = true → api'.consecutive_failures = 0 ∧
        api'.consecutive_successes = api.consecutive_successes + 1) ∧
      (res.is_ok = false → api'.consecutive_successes = 0 ∧
        api'.consecutive_failures = api.consecutive_failures + 1) := by
  have hgood : goodDB S (runChecks S db0 inputs) := goodDB_runChecks S hF hR db0 inputs hinit
  set db := runChecks S db0 inputs with hdb
  have hpair : goodPair S api db.incidents := by
    unfold goodDB at hgood
    rw [htgt] at hgood
    exact hgood
  obtain ⟨hup, hdn⟩ := hpair
  rw [check_api_active S now db res sendOk api htgt hact]
  refine ⟨_, rfl, ?_⟩
  cases hok : res.is_ok with
  | true =>
    cases hu : api.is_up with
    | true =>
      rw [transitionStep_success_up S now (refreshMute api now) db.incidents
        (isMuted (refreshMute api now) now) sendOk (by simp [hu])]
      simp [hok, hu]
    | false =>
      obtain ⟨hcs, st, hst, hopen⟩ := hdn hu
      by_cases hth : S.RECOVERY_THRESHOLD ≤ api.consecutive_successes + 1
      · rw [transitionStep_recover S now (refreshMute api now) db.incidents
          (isMuted (refreshMute api now) now) sendOk st (by simp [hu])
          (by simpa using hth) (by simp [hst])]
        simp [hok, hu]
        omega
      · rw [transitionStep_success_below S now (refreshMute api now) db.incidents
          (isMuted (refreshMute api now) now) sendOk (by simp [hu])
          (by simpa using Nat.not_le.mp hth)]
        simp [hok, hu]
        omega
  | false =>
    cases hu : api.is_up with
    | true =>
      obtain ⟨hcf, hist, hopen⟩ := hup hu
      by_cases hth : S.FAILURE_THRESHOLD ≤ api.consecutive_failures + 1
      · rw [transitionStep_go_down S now (refreshMute api now) db.incidents
          (isMuted (refreshMute api now) now) sendOk (by simp [hu])
          (by simpa using hth)]
        simp [hok, hu]
        omega
      · rw [transitionStep_fail_below S now (refreshMute api now) db.incidents
          (isMuted (refreshMute api now) now) sendOk (by simp [hu])
          (by simpa using Nat.not_le.mp hth)]
        simp [hok, hu]
        omega
    | false =>
      rw [transitionStep_fail_down S now (refreshMute api now) db.incidents
        (isMuted (refreshMute api now) now) sendOk (by simp [hu])]
      simp [hok, hu]

/-- Closed witness for C1: fresh target, empty run, one failing check
(the counter goes 0 → 1 < 3, so no transition). -/
theorem hysteresis_transitions_witness :
    ∃ api', (check_api sampleSettings 0 (runChecks sampleSettings sampleDB [])
        (CheckOutcome.mk false (-1)) true).db.target = some api' ∧
      ((sampleTarget.is_up = true ∧ api'.is_up = false) ↔
        ((CheckOutcome.mk false (-1)).is_ok = false ∧ sampleTarget.is_up = true ∧
          sampleTarget.consecutive_failures + 1 = sampleSettings.FAILURE_THRESHOLD)) ∧
      ((sampleTarget.is_up = false ∧ api'.is_up = true) ↔
        ((CheckOutcome.mk false (-1)).is_ok = true ∧ sampleTarget.is_up = false ∧
          sampleTarget.consecutive_successes + 1 = sampleSettings.RECOVERY_THRESHOLD)) ∧
      ((CheckOutcome.mk false (-1)).is_ok = true → api'.consecutive_failures = 0 ∧
        api'.consecutive_successes = sampleTarget.consecutive_successes + 1) ∧
      ((CheckOutcome.mk false (-1)).is_ok = false → api'.consecutive_successes = 0 ∧
        api'.consecutive_failures = sampleTarget.consecutive_failures + 1) :=
  hysteresis_transitions sampleSettings (by decide)
    (by decide) sampleDB []
    (by simp [goodDB, sampleDB, sampleTarget, goodPair, sampleSettings])
    0 (CheckOutcome.mk false (-1)) true sampleTarget rfl rfl

/-! ## C2: incident lifecycle -/

/-- C2: after every check-processing step, a down target has its
incident start time set and exactly one open incident (with that start
time), an up target has no incident start time and no open incident;
an UP→DOWN transition opens exactly one incident, a DOWN→UP transition
closes exactly the unique open incident — the one opened by the
corresponding UP→DOWN transition, identified by the recorded start
time — and a step without transition leaves the incident table
unchanged. -/
theorem incident_bijection (S : Settings) (hF : 1 ≤ S.FAILURE_THRESHOLD)
    (hR : 1 ≤ S.RECOVERY_THRESHOLD) (db : DBState)
    (hreach : ∃ db0 inputs, goodDB S db0 ∧ db = runChecks S db0 inputs)
    (now : ℚ) (res : CheckOutcome) (sendOk : Bool) (api : Target)
    (htgt : db.target = some api) (hact : api.is_active = true) :
    ∃ api', (check_api S now db res sendOk).db.target = some api' ∧
      (api'.is_up = false → ∃ st, api'.incident_start_time = some st ∧
        openIncidents (check_api S now db res sendOk).db.incidents = [⟨st, none⟩]) ∧
      (api'.is_up = true → api'.incident_start_time = none ∧
        openIncidents (check_api S now db res sendOk).db.incidents = []) ∧
      (api.is_up = true → api'.is_up = false →
        ∃ st, api'.incident_start_time = some st ∧
          (check_api S now db res sendOk).db.incidents = db.incidents ++ [⟨st, none⟩]) ∧
      (api.is_up = false → api'.is_up = true →
        ∃ st pre post, api.incident_start_time = some st ∧
          db.incidents = pre ++ ⟨st, none⟩ :: post ∧
          (check_api S now db res sendOk).db.incidents = pre ++ ⟨st, some now⟩ :: post ∧
          openIncidents pre = [] ∧ openIncidents post = []) ∧
      (api'.is_up = api.is_up →
        (check_api S now db res sendOk).db.incidents = db.incidents) := by
  obtain ⟨db0, inputs, hinit, hdb⟩ := hreach
  have hgood : goodDB S db := by
    rw [hdb]; exact goodDB_runChecks S hF hR db0 inputs hinit
  have hpair : goodPair S api db.incidents := by
    unfold goodDB at hgood
    rw [htgt] at hgood
    exact hgood
  obtain ⟨hup, hdn⟩ := hpair
  rw [check_api_active S now db res sendOk api htgt hact]
  refine ⟨_, rfl, ?_⟩
  cases hok : res.is_ok with
  | true =>
    cases hu : api.is_up with
    | true =>
      obtain ⟨hcf, hist, hopen⟩ := hup hu
      rw [transitionStep_success_up S now (refreshMute api now) db.incidents
        (isMuted (refreshMute api now) now) sendOk (by simp [hu])]
      simp [hu, hist, hopen]
    | false =>
      obtain ⟨hcs, st, hst, hopen⟩ := hdn hu
      by_cases hth : S.RECOVERY_THRESHOLD ≤ api.consecutive_successes + 1
      · rw [transitionStep_recover S now (refreshMute api now) db.incidents
          (isMuted (refreshMute api now) now) sendOk st (by simp [hu])
          (by simpa using hth) (by simp [hst])]
        obtain ⟨pre, post, hdec, hclose, hpre, hpost⟩ :=
          closeFirstOpen_of_unique db.incidents st now hopen
        refine ⟨by simp, fun _ => ⟨rfl, ?_⟩, by simp [hu], fun _ _ => ?_, by simp [hu]⟩
        · exact openIncidents_closeFirstOpen db.incidents st now hopen
        · exact ⟨st, pre, post, hst, hdec, hclose, hpre, hpost⟩
      · rw [transitionStep_success_below S now (refreshMute api now) db.incidents
          (isMuted (refreshMute api now) now) sendOk (by simp [hu])
          (by simpa using Nat.not_le.mp hth)]
        simp [hu, hst, hopen]
  | false =>
    cases hu : api.is_up with
    | true =>
      obtain ⟨hcf, hist, hopen⟩ := hup hu
      by_cases hth : S.FAILURE_THRESHOLD ≤ api.consecutive_failures + 1
      · rw [transitionStep_go_down S now (refreshMute api now) db.incidents
          (isMuted (refreshMute api now) now) sendOk (by simp [hu])
          (by simpa using hth)]
        refine ⟨fun _ => ⟨_, rfl, ?_⟩, by simp, fun _ _ => ⟨_, rfl, rfl⟩,
          by simp [hu], by simp [hu]⟩
        rw [openIncidents_append, hopen, openIncidents_cons_open _ _ rfl, List.nil_append]
        rfl
      · rw [transitionStep_fail_below S now (refreshMute api now) db.incidents
          (isMuted (refreshMute api now) now) sendOk (by simp [hu])
          (by simpa using Nat.not_le.mp hth)]
        simp [hu, hist, hopen]
    | false =>
      obtain ⟨hcs, st, hst, hopen⟩ := hdn hu
      rw [transitionStep_fail_down S now (refreshMute api now) db.incidents
        (isMuted (refreshMute api now) now) sendOk (by simp [hu])]
      simp [hu, hst, hopen]

/-- Closed witness for C2: fresh target, empty run, one failing check. -/
theorem incident_bijection_witness :
    ∃ api', (check_api sampleSettings 0 sampleDB (CheckOutcome.mk false (-1))
        true).db.target = some api' ∧
      (api'.is_up = false → ∃ st, api'.incident_start_time = some st ∧
        openIncidents (check_api sampleSettings 0 sampleDB (CheckOutcome.mk false (-1))
          true).db.incidents = [⟨st, none⟩]) ∧
      (api'.is_up = true → api'.incident_start_time = none ∧
        openIncidents (check_api sampleSettings 0 sampleDB (CheckOutcome.mk false (-1))
          true).db.incidents = []) ∧
      (sampleTarget.is_up = true → api'.is_up = false →
        ∃ st, api'.incident_start_time = some st ∧
          (check_api sampleSettings 0 sampleDB (CheckOutcome.mk false (-1))
            true).db.incidents = sampleDB.incidents ++ [⟨st, none⟩]) ∧
      (sampleTarget.is_up = false → api'.is_up = true →
        ∃ st pre post, sampleTarget.incident_start_time = some st ∧
          sampleDB.incidents = pre ++ ⟨st, none⟩ :: post ∧
          (check_api sampleSettings 0 sampleDB (CheckOutcome.mk false (-1))
            true).db.incidents = pre ++ ⟨st, some 0⟩ :: post ∧
          openIncidents pre = [] ∧ openIncidents post = []) ∧
      (api'.is_up = sampleTarget.is_up →
        (check_api sampleSettings 0 sampleDB (CheckOutcome.mk false (-1))
          true).db.incidents = sampleDB.incidents) :=
  incident_bijection sampleSettings (by decide) (by decide) sampleDB
    ⟨sampleDB, [], by simp [goodDB, sampleDB, sampleTarget, goodPair, sampleSettings], rfl⟩
    0 (CheckOutcome.mk false (-1)) true sampleTarget rfl rfl

/-! ## C3: robust statistics -/

theorem foldl_ewma (rest : List ℚ) (v : ℚ) :
    rest.foldl (fun e x => (3 / 10) * x + (7 / 10) * e) v = ewma_spec v rest := by
  induction rest generalizing v with
  | nil => rfl
  | cons x xs ih => simp [List.foldl_cons, ewma_spec, ih]

theorem p95_index_eq (n : ℕ) (hn : 1 ≤ n) :
    min (n - 1) (max 0 (Nat.ceil ((95 : ℚ) / 100 * n) - 1)) =
      min (Nat.ceil ((95 : ℚ) / 100 * n)) n - 1 := by
  have hnQ : (0 : ℚ) < n := by exact_mod_cast hn
  have hc1 : 1 ≤ Nat.ceil ((95 : ℚ) / 100 * n) := by
    rw [Nat.one_le_iff_ne_zero, ← Nat.pos_iff_ne_zero, Nat.ceil_pos]
    positivity
  have hcn : Nat.ceil ((95 : ℚ) / 100 * n) ≤ n := by
    rw [Nat.ceil_le]
    nlinarith
  omega

/-- C3: `robust_stats` returns the standard median, the median of
absolute deviations from it, `UCL = median + 3 × 1.4826 × MAD`, the
left-to-right EWMA recurrence with α = 0.3 seeded at the first sample,
and the P95 at 1-indexed rank `ceil(0.95·n)` of the ascending sort
(clamped to the last element); the empty list yields all zeros, and in
particular `[50,50,50,200]` gives median 50, MAD 0, UCL 50, and the
EWMA of `[100,200]` is 130. -/
theorem robust_stats_formulas (values : List ℤ) (h : values ≠ []) :
    ((robust_stats values).median = medianQ (values.map (fun x : ℤ => (x : ℚ))) ∧
     (robust_stats values).mad = medianQ ((values.map (fun x : ℤ => (x : ℚ))).map
        (fun v => |v - medianQ (values.map (fun x : ℤ => (x : ℚ)))|)) ∧
     (robust_stats values).ucl = (robust_stats values).median +
        3 * (14826 / 10000) * (robust_stats values).mad ∧
     (robust_stats values).ewma =
        ewma_spec ((values.headI : ℤ) : ℚ) (values.tail.map (fun x : ℤ => (x : ℚ))) ∧
     (robust_stats values).p95 = p95_spec values) ∧
    robust_stats [] = ⟨0, 0, 0, 0, 0⟩ ∧
    (robust_stats [50, 50, 50, 200]).median = 50 ∧
    (robust_stats [50, 50, 50, 200]).mad = 0 ∧
    (robust_stats [50, 50, 50, 200]).ucl = 50 ∧
    (robust_stats [100, 200]).ewma = 130 := by
  obtain ⟨v, vs, rfl⟩ := List.exists_cons_of_ne_nil h
  have hrs : robust_stats (v :: vs) =
      ⟨medianQ ((v :: vs).map (fun x : ℤ => (x : ℚ))),
       medianQ (((v :: vs).map (fun x : ℤ => (x : ℚ))).map
         (fun x => |x - medianQ ((v :: vs).map (fun x : ℤ => (x : ℚ)))|)),
       ewmaLoop ((v :: vs).map (fun x : ℤ => (x : ℚ))),
       (List.insertionSort (· ≤ ·) ((v :: vs).map (fun x : ℤ => (x : ℚ)))).getD
         (min (((v :: vs).map (fun x : ℤ => (x : ℚ))).length - 1)
           (max 0 (Nat.ceil ((95 : ℚ) / 100 *
             ((v :: vs).map (fun x : ℤ => (x : ℚ))).length) - 1))) 0,
       medianQ ((v :: vs).map (fun x : ℤ => (x : ℚ))) + 3 * (14826 / 10000) *
         medianQ (((v :: vs).map (fun x : ℤ => (x : ℚ))).map
           (fun x => |x - medianQ ((v :: vs).map (fun x : ℤ => (x : ℚ)))|))⟩ := by
    unfold robust_stats
    rw [if_neg (List.cons_ne_nil _ _)]
  refine ⟨⟨?_, ?_, ?_, ?_, ?_⟩, rfl, ?_, ?_, ?_, ?_⟩
  · rw [hrs]
  · rw [hrs]
  · rw [hrs]
  · rw [hrs]
    simp only [List.map_cons, ewmaLoop, List.headI, List.tail_cons]
    exact foldl_ewma _ _
  · rw [hrs]
    unfold p95_spec
    have hlen : ((v :: vs).map (fun x : ℤ => (x : ℚ))).length = (v :: vs).length := by
      simp
    rw [hlen, p95_index_eq (v :: vs).length (by simp [Nat.succ_le_iff])]
  · norm_num [robust_stats, medianQ, ewmaLoop, List.insertionSort, List.orderedInsert]
    rw [if_neg (List.cons_ne_nil _ _)]
  · norm_num [robust_stats, medianQ, ewmaLoop, List.insertionSort, List.orderedInsert]
    rw [if_neg (List.cons_ne_nil _ _)]
  · norm_num [robust_stats, medianQ, ewmaLoop, List.insertionSort, List.orderedInsert]
    rw [if_neg (List.cons_ne_nil _ _)]
  · norm_num [robust_stats, medianQ, ewmaLoop, List.insertionSort, List.orderedInsert]
    rw [if_neg (List.cons_ne_nil _ _)]

/-- Closed witness for C3 at `[50,50,50,200]`. -/
theorem robust_stats_formulas_witness :
    ((robust_stats [50, 50, 50, 200]).median =
        medianQ ([(50 : ℤ), 50, 50, 200].map (fun x : ℤ => (x : ℚ))) ∧
     (robust_stats [50, 50, 50, 200]).mad =
        medianQ (([(50 : ℤ), 50, 50, 200].map (fun x : ℤ => (x : ℚ))).map
          (fun v => |v - medianQ ([(50 : ℤ), 50, 50, 200].map (fun x : ℤ => (x : ℚ)))|)) ∧
     (robust_stats [50, 50, 50, 200]).ucl = (robust_stats [50, 50, 50, 200]).median +
        3 * (14826 / 10000) * (robust_stats [50, 50, 50, 200]).mad ∧
     (robust_stats [50, 50, 50, 200]).ewma =
        ewma_spec ((([(50 : ℤ), 50, 50, 200].headI : ℤ)) : ℚ)
          ([(50 : ℤ), 50, 50, 200].tail.map (fun x : ℤ => (x : ℚ))) ∧
     (robust_stats [50, 50, 50, 200]).p95 = p95_spec [50, 50, 50, 200]) ∧
    robust_stats [] = ⟨0, 0, 0, 0, 0⟩ ∧
    (robust_stats [50, 50, 50, 200]).median = 50 ∧
    (robust_stats [50, 50, 50, 200]).mad = 0 ∧
    (robust_stats [50, 50, 50, 200]).ucl = 50 ∧
    (robust_stats [100, 200]).ewma = 130 :=
  robust_stats_formulas [50, 50, 50, 200] (by simp)

/-! ## C10: missing / inactive target is a no-op -/

/-- C10: if the target id does not resolve or the resolved target is
inactive, `check_api` has no observable effect: the database (history,
target row, incidents, anomaly events) is unchanged and no notification
is attempted or delivered. -/
theorem inactive_target_noop (S : Settings) (now : ℚ) (db : DBState) (res : CheckOutcome)
    (sendOk : Bool)
    (h : db.target = none ∨ ∃ api, db.target = some api ∧ api.is_active = false) :
    check_api S now db res sendOk = ⟨db, [], []⟩ := by
  rcases h with h | ⟨api, htgt, hact⟩
  · exact check_api_no_target S now db res sendOk h
  · exact check_api_inactive S now db res sendOk api htgt hact

/-- Closed witness for C10: a concrete paused target. -/
theorem inactive_target_noop_witness :
    check_api sampleSettings 0
        ⟨some { sampleTarget with is_active := false }, [], [], [], none⟩
        (CheckOutcome.mk true 100) true =
      ⟨⟨some { sampleTarget with is_active := false }, [], [], [], none⟩, [], []⟩ :=
  inactive_target_noop sampleSettings 0
    ⟨some { sampleTarget with is_active := false }, [], [], [], none⟩
    (CheckOutcome.mk true 100) true (Or.inr ⟨_, rfl, rfl⟩)

/-! ## C9: notification failures do not disturb the state update -/

theorem anomalyStep_sendOk_independent (S : Settings) (now : ℚ) (api : Target)
    (hist : List CheckHistoryEntry) (ucl : Option ℤ) (anoms : List AnomalyRecord)
    (res : CheckOutcome) (muted : Bool) (so so' : Bool) :
    (anomalyStep S now api hist ucl anoms res muted so).records =
      (anomalyStep S now api hist ucl anoms res muted so').records ∧
    (anomalyStep S now api hist ucl anoms res muted so).events =
      (anomalyStep S now api hist ucl anoms res muted so').events := by
  unfold anomalyStep
  repeat' split
  all_goals simp [trySendEvent_fst, apply_ite AnomalyResult.records,
    apply_ite AnomalyResult.events]

theorem transitionStep_sendOk_independent (S : Settings) (now : ℚ) (api : Target)
    (incs : List Incident) (is_ok muted : Bool) (so so' : Bool) :
    (transitionStep S now api incs is_ok muted so).target =
      (transitionStep S now api incs is_ok muted so').target ∧
    (transitionStep S now api incs is_ok muted so).incidents =
      (transitionStep S now api incs is_ok muted so').incidents ∧
    (transitionStep S now api incs is_ok muted so).events =
      (transitionStep S now api incs is_ok muted so').events := by
  unfold transitionStep
  repeat' split
  all_goals simp [trySendEvent_fst, apply_ite TransitionResult.target,
    apply_ite TransitionResult.incidents, apply_ite TransitionResult.events]

/-- C9: if sending any DOWN, RECOVERED or anomaly notification raises
inside the messaging layer, the check cycle still completes unchanged:
the history row is still appended and the target's counters, up/down
flag, incident bookkeeping and anomaly log are exactly those of a run
where every notification succeeds; only delivery is lost. -/
theorem notification_failure_frame (S : Settings) (now : ℚ) (db : DBState)
    (res : CheckOutcome) :
    (check_api S now db res false).db = (check_api S now db res true).db ∧
    (check_api S now db res false).events = (check_api S now db res true).events := by
  cases htgt : db.target with
  | none =>
    rw [check_api_no_target S now db res false htgt,
      check_api_no_target S now db res true htgt]
    exact ⟨rfl, rfl⟩
  | some api0 =>
    cases hact : api0.is_active with
    | false =>
      rw [check_api_inactive S now db res false api0 htgt hact,
        check_api_inactive S now db res true api0 htgt hact]
      exact ⟨rfl, rfl⟩
    | true =>
      rw [check_api_active S now db res false api0 htgt hact,
        check_api_active S now db res true api0 htgt hact]
      obtain ⟨hrec, hev⟩ := anomalyStep_sendOk_independent S now (refreshMute api0 now)
        (db.history ++ [⟨res.is_ok, res.response_time_ms⟩]) db.latest_ucl_ms db.anomalies
        res (isMuted (refreshMute api0 now) now) false true
      obtain ⟨htg, hinc, hevt⟩ := transitionStep_sendOk_independent S now
        (refreshMute api0 now) db.incidents res.is_ok
        (isMuted (refreshMute api0 now) now) false true
      exact ⟨by rw [htg, hinc, hrec], by rw [hev, hevt]⟩

/-! ## C7: effects of an UP→DOWN transition -/

theorem anomalyStep_count_down_zero (S : Settings) (now : ℚ) (api : Target)
    (hist : List CheckHistoryEntry) (ucl : Option ℤ) (anoms : List AnomalyRecord)
    (res : CheckOutcome) (muted sendOk : Bool) :
    ((anomalyStep S now api hist ucl anoms res muted sendOk).events).count
      NotificationEvent.down = 0 := by
  unfold anomalyStep
  repeat' split
  all_goals simp [trySendEvent_fst, apply_ite AnomalyResult.events,
    apply_ite (List.count NotificationEvent.down)]

/-- C7 (amended): on every UP→DOWN transition (the consecutive-failure
counter reaching `FAILURE_THRESHOLD` while up), the incident start time
is backdated to `now − check_interval × (consecutive_failures − 1)`, an
incident row is opened with exactly that start time, and — unless the
target is muted at check time — exactly one DOWN notification event is
emitted (a muted target emits none).  With `FAILURE_THRESHOLD = 3` the
backdated start is `now − 2 × interval`. -/
theorem down_transition_effects (S : Settings) (now : ℚ) (db : DBState)
    (res : CheckOutcome) (sendOk : Bool) (api : Target)
    (htgt : db.target = some api) (hact : api.is_active = true)
    (hfail : res.is_ok = false) (hup : api.is_up = true)
    (hth : api.consecutive_failures + 1 = S.FAILURE_THRESHOLD) :
    ∃ api', (check_api S now db res sendOk).db.target = some api' ∧
      api'.is_up = false ∧
      api'.incident_start_time =
        some (now - api.check_interval * ((S.FAILURE_THRESHOLD : ℚ) - 1)) ∧
      (check_api S now db res sendOk).db.incidents = db.incidents ++
        [⟨now - api.check_interval * ((S.FAILURE_THRESHOLD : ℚ) - 1), none⟩] ∧
      (check_api S now db res sendOk).events.count NotificationEvent.down =
        (if isMuted (refreshMute api now) now then 0 else 1) := by
  rw [check_api_active S now db res sendOk api htgt hact, hfail]
  rw [transitionStep_go_down S now (refreshMute api now) db.incidents
    (isMuted (refreshMute api now) now) sendOk (by simp [hup])
    (by simp [hth])]
  refine ⟨_, rfl, rfl, ?_, ?_, ?_⟩
  · simp [← hth]
  · simp [← hth]
  · rw [List.count_append, anomalyStep_count_down_zero]
    simp [trySendEvent_fst]
    split <;> simp

/-- Closed witness for C7: the unmuted failing target transitions down:
incident backdated by `2 × 60 s` and one DOWN event. -/
theorem down_transition_effects_witness :
    ∃ api', (check_api sampleSettings 0 ⟨some failingTarget, [], [], [], none⟩
        (CheckOutcome.mk false (-1)) true).db.target = some api' ∧
      api'.is_up = false ∧
      api'.incident_start_time =
        some (0 - failingTarget.check_interval * ((sampleSettings.FAILURE_THRESHOLD : ℚ) - 1)) ∧
      (check_api sampleSettings 0 ⟨some failingTarget, [], [], [], none⟩
        (CheckOutcome.mk false (-1)) true).db.incidents = [] ++
        [⟨0 - failingTarget.check_interval * ((sampleSettings.FAILURE_THRESHOLD : ℚ) - 1), none⟩] ∧
      (check_api sampleSettings 0 ⟨some failingTarget, [], [], [], none⟩
        (CheckOutcome.mk false (-1)) true).events.count NotificationEvent.down =
        (if isMuted (refreshMute failingTarget 0) 0 then 0 else 1) :=
  down_transition_effects sampleSettings 0 ⟨some failingTarget, [], [], [], none⟩
    (CheckOutcome.mk false (-1)) true failingTarget rfl rfl rfl rfl
    (by simp [failingTarget, sampleTarget, sampleSettings])

/-- Counterexample to C7 as stated: a muted target makes the very same
UP→DOWN transition (state goes down, the incident is opened) but emits
no DOWN notification event at all. -/
theorem down_transition_muted_counterexample :
    ∃ api', (check_api sampleSettings 0 ⟨some failingMutedTarget, [], [], [], none⟩
        (CheckOutcome.mk false (-1)) true).db.target = some api' ∧
      failingMutedTarget.is_up = true ∧ api'.is_up = false ∧
      (check_api sampleSettings 0 ⟨some failingMutedTarget, [], [], [], none⟩
        (CheckOutcome.mk false (-1)) true).events.count NotificationEvent.down = 0 := by
  obtain ⟨api', h1, h2, h3, h4, h5⟩ :=
    down_transition_effects sampleSettings 0 ⟨some failingMutedTarget, [], [], [], none⟩
      (CheckOutcome.mk false (-1)) true failingMutedTarget rfl rfl rfl rfl
      (by simp [failingMutedTarget, failingTarget, sampleTarget, sampleSettings])
  refine ⟨api', h1, rfl, h2, ?_⟩
  rw [h5]
  simp [isMuted, refreshMute, muteExpired, failingMutedTarget, failingTarget, sampleTarget]

/-! ## C8: retry loop bounds -/

theorem retryFrom_transient (out : ℕ → AttemptResult) (backoff : ℚ)
    (hout : ∀ i, out i = AttemptResult.transientError) :
    ∀ n, 1 ≤ n → ∀ i, retryFrom out backoff i n =
      (n, (List.range (n - 1)).map (fun j => backoff * 2 ^ (i + j)), none) := by
  intro n
  induction n with
  | zero => omega
  | succ m ih =>
    intro _ i
    unfold retryFrom
    rw [hout i]
    by_cases hm : m = 0
    · subst hm; simp
    · rw [if_neg hm, ih (Nat.one_le_iff_ne_zero.mpr hm) (i + 1)]
      refine Prod.ext rfl (Prod.ext ?_ rfl)
      obtain ⟨p, rfl⟩ : ∃ p, m = p + 1 := ⟨m - 1, by omega⟩
      simp only [Nat.add_sub_cancel, List.range_succ_eq_map, List.map_cons, List.map_map,
        List.cons.injEq]
      refine ⟨by rw [Nat.add_zero], ?_⟩
      refine List.map_congr_left ?_
      intro j _
      simp only [Function.comp, Nat.succ_eq_add_one]
      ring

/-- C8: a probe whose every attempt fails with a transient transport or
timeout error performs exactly `REQUEST_RETRIES` attempts, sleeping
`REQUEST_BACKOFF * 2^attempt` between consecutive attempts (so the total
sleep is at least the first backoff delay once there are two attempts),
and produces exactly one failed result with a transient-error reason; a
response with a wrong status code or with missing JSON keys fails after
a single attempt — it is never retried. -/
theorem retry_bound (expectedStatus : ℕ) (jsonKeysRequired : Bool) (backoff : ℚ)
    (r : ℕ) (out outStatus outKeys : ℕ → AttemptResult) (s : ℕ) (k : Bool)
    (hr : 1 ≤ r) (hb : 0 ≤ backoff)
    (hout : ∀ i, out i = AttemptResult.transientError)
    (hs : outStatus 0 = AttemptResult.response s k) (hneq : s ≠ expectedStatus)
    (hk : outKeys 0 = AttemptResult.response expectedStatus false)
    (hreq : jsonKeysRequired = true) :
    probeCheck expectedStatus jsonKeysRequired out backoff r =
      (r, (List.range (r - 1)).map (fun j => backoff * 2 ^ j), ProbeResult.failTransient) ∧
    (2 ≤ r → backoff ≤ (((List.range (r - 1)).map (fun j => backoff * 2 ^ j)).sum)) ∧
    (probeCheck expectedStatus jsonKeysRequired outStatus backoff r).1 = 1 ∧
    (probeCheck expectedStatus jsonKeysRequired outStatus backoff r).2.2 =
      ProbeResult.failStatusMismatch ∧
    (probeCheck expectedStatus jsonKeysRequired outKeys backoff r).1 = 1 ∧
    (probeCheck expectedStatus jsonKeysRequired outKeys backoff r).2.2 =
      ProbeResult.failMissingKeys := by
  obtain ⟨m, rfl⟩ : ∃ m, r = m + 1 := ⟨r - 1, by omega⟩
  have hloop := retryFrom_transient out backoff hout (m + 1) (by omega) 0
  refine ⟨?_, ?_, ?_, ?_, ?_, ?_⟩
  · unfold probeCheck retryLoop
    rw [hloop]
    simp
  · intro h2
    obtain ⟨p, rfl⟩ : ∃ p, m = p + 1 := ⟨m - 1, by omega⟩
    simp only [Nat.add_sub_cancel, List.range_succ_eq_map, List.map_cons, List.sum_cons,
      pow_zero, mul_one]
    have hnn : 0 ≤ (((List.range p).map Nat.succ).map (fun j => backoff * 2 ^ j)).sum := by
      refine List.sum_nonneg ?_
      intro x hx
      simp only [List.mem_map] at hx
      obtain ⟨j, -, rfl⟩ := hx
      positivity
    linarith
  · unfold probeCheck retryLoop retryFrom
    rw [hs]
    simp [hneq]
  · unfold probeCheck retryLoop retryFrom
    rw [hs]
    simp [hneq]
  · unfold probeCheck retryLoop retryFrom
    rw [hk]
    simp [hreq]
  · unfold probeCheck retryLoop retryFrom
    rw [hk]
    simp [hreq]

/-- Closed witness for C8: `REQUEST_RETRIES = 2`, backoff 0.5 s,
expected status 200 with required JSON keys; a probe that always times
out, one that returns status 500, one that returns 200 without the
keys. -/
theorem retry_bound_witness :
    probeCheck 200 true (fun _ => AttemptResult.transientError) (1 / 2) 2 =
      (2, (List.range (2 - 1)).map (fun j => (1 / 2 : ℚ) * 2 ^ j),
        ProbeResult.failTransient) ∧
    (2 ≤ 2 → (1 / 2 : ℚ) ≤
      (((List.range (2 - 1)).map (fun j => (1 / 2 : ℚ) * 2 ^ j)).sum)) ∧
    (probeCheck 200 true (fun _ => AttemptResult.response 500 true) (1 / 2) 2).1 = 1 ∧
    (probeCheck 200 true (fun _ => AttemptResult.response 500 true) (1 / 2) 2).2.2 =
      ProbeResult.failStatusMismatch ∧
    (probeCheck 200 true (fun _ => AttemptResult.response 200 false) (1 / 2) 2).1 = 1 ∧
    (probeCheck 200 true (fun _ => AttemptResult.response 200 false) (1 / 2) 2).2.2 =
      ProbeResult.failMissingKeys :=
  retry_bound 200 true (1 / 2) 2 (fun _ => AttemptResult.transientError)
    (fun _ => AttemptResult.response 500 true) (fun _ => AttemptResult.response 200 false)
    500 true (by norm_num) (by norm_num) (fun _ => rfl) rfl (by norm_num) rfl rfl

/-! ## C4: anomaly threshold and candidate detection -/

/-- C4 (amended): when the anomaly detector evaluates a fresh successful
latency sample against a baseline with positive UCL, the effective
threshold is `max(UCL × sensitivity, P95 × ANOMALY_PCT_FACTOR)` where
the P95 window consists of the positive recorded latencies among the
target's last 50 history samples — successes and failures alike, the
current sample included — and the sample is a candidate anomaly iff its
latency strictly exceeds that threshold. -/
theorem anomaly_threshold (S : Settings) (api : Target)
    (histAfter : List CheckHistoryEntry) (u : ℤ) (latency : ℤ)
    (hu : 0 < u) (hs : 0 < effOr api.anomaly_sensitivity S.ANOMALY_SENSITIVITY) :
    effectiveThreshold S api histAfter u =
      max ((u : ℚ) * effOr api.anomaly_sensitivity S.ANOMALY_SENSITIVITY)
        ((robust_stats (positiveVals (recentPoints histAfter 50))).p95 *
          S.ANOMALY_PCT_FACTOR) ∧
    ((detect_anomaly latency (effectiveThreshold S api histAfter u)).1 = true ↔
      effectiveThreshold S api histAfter u < (latency : ℚ)) := by
  have hthr : 0 < effectiveThreshold S api histAfter u := by
    have hbase : (0 : ℚ) < (u : ℚ) * effOr api.anomaly_sensitivity S.ANOMALY_SENSITIVITY :=
      mul_pos (by exact_mod_cast hu) hs
    exact lt_of_lt_of_le hbase (le_max_left _ _)
  refine ⟨rfl, ?_⟩
  unfold detect_anomaly
  rw [if_neg (not_le.mpr hthr)]
  by_cases hlt : effectiveThreshold S api histAfter u < (latency : ℚ)
  · simp [hlt]
  · simp [hlt]

/-- Closed witness for C4 at the concrete baseline `ucl = 100`,
sensitivity 1, history `cex4Hist`, latency 150. -/
theorem anomaly_threshold_witness :
    effectiveThreshold cex4Settings cex4Target cex4Hist 100 =
      max ((100 : ℚ) * effOr cex4Target.anomaly_sensitivity cex4Settings.ANOMALY_SENSITIVITY)
        ((robust_stats (positiveVals (recentPoints cex4Hist 50))).p95 *
          cex4Settings.ANOMALY_PCT_FACTOR) ∧
    ((detect_anomaly 150 (effectiveThreshold cex4Settings cex4Target cex4Hist 100)).1 = true ↔
      effectiveThreshold cex4Settings cex4Target cex4Hist 100 < (150 : ℚ)) :=
  anomaly_threshold cex4Settings cex4Target cex4Hist 100 150 (by norm_num)
    (by norm_num [effOr, cex4Target, sampleTarget])

/-- Counterexample to C4 as stated: with baseline `ucl = 100`,
sensitivity 1 and percentile factor 0.5, the failed check's latency 1000
sits in the code's P95 window, so the code's threshold is 500 and the
fresh sample 150 is NOT a candidate — while the spec's successful-only
window gives threshold 100 and declares it a candidate. -/
theorem anomaly_threshold_counterexample :
    effectiveThreshold cex4Settings cex4Target cex4Hist 100 = 500 ∧
    effectiveThreshold_specOkOnly cex4Settings cex4Target cex4Hist 100 = 100 ∧
    (detect_anomaly 150 (effectiveThreshold cex4Settings cex4Target cex4Hist 100)).1 =
      false ∧
    (detect_anomaly 150
      (effectiveThreshold_specOkOnly cex4Settings cex4Target cex4Hist 100)).1 = true := by
  have hvals : positiveVals (recentPoints cex4Hist 50) = [1000, 100, 150] := by decide
  have hvalsOk : positiveOkVals (recentPoints cex4Hist 50) = [100, 150] := by decide
  have hc3 : Nat.ceil ((57 : ℚ) / 20) = 3 := by norm_num [Nat.ceil_eq_iff]
  have hc2 : Nat.ceil ((19 : ℚ) / 10) = 2 := by norm_num [Nat.ceil_eq_iff]
  have hp1 : (robust_stats [1000, 100, 150]).p95 = 1000 := by
    norm_num [robust_stats, medianQ, List.insertionSort, List.orderedInsert]
    rw [if_neg (List.cons_ne_nil _ _)]
    norm_num [hc3]
  have hp2 : (robust_stats [100, 150]).p95 = 150 := by
    norm_num [robust_stats, medianQ, List.insertionSort, List.orderedInsert]
    rw [if_neg (List.cons_ne_nil _ _)]
    norm_num [hc2]
  have ht1 : effectiveThreshold cex4Settings cex4Target cex4Hist 100 = 500 := by
    unfold effectiveThreshold
    rw [hvals]
    norm_num [hp1, effOr, cex4Target, sampleTarget, cex4Settings]
  have ht2 : effectiveThreshold_specOkOnly cex4Settings cex4Target cex4Hist 100 = 100 := by
    unfold effectiveThreshold_specOkOnly
    rw [hvalsOk]
    norm_num [hp2, effOr, cex4Target, sampleTarget, cex4Settings]
  refine ⟨ht1, ht2, ?_, ?_⟩
  · rw [ht1]; norm_num [detect_anomaly]
  · rw [ht2]; norm_num [detect_anomaly]

/-! ## C5: m-of-n debounce -/

theorem anomalyStep_suppressed_of_over_lt (S : Settings) (now : ℚ) (api : Target)
    (hist : List CheckHistoryEntry) (u : ℤ) (anoms : List AnomalyRecord)
    (res : CheckOutcome) (muted sendOk : Bool)
    (hover : overCount hist (effOrN api.anomaly_n S.ANOMALY_N)
        (effectiveThreshold S api hist u) < effOrN api.anomaly_m S.ANOMALY_M) :
    anomalyStep S now api hist (some u) anoms res muted sendOk = ⟨[], [], []⟩ := by
  unfold anomalyStep
  by_cases hg : S.ML_ENABLED = true ∧ 0 ≤ res.response_time_ms ∧ res.is_ok = true
  · rw [if_pos hg]
    dsimp only
    by_cases hua : u ≠ 0 ∧ api.anomaly_alerts_enabled = true
    · rw [if_pos hua]
      by_cases hcand : (detect_anomaly res.response_time_ms
          (effectiveThreshold S api hist u)).1 = true
      · rw [if_pos hcand, if_pos hover]
      · rw [if_neg hcand]
    · rw [if_neg hua]
  · rw [if_neg hg]

/-- C5 (amended): when fewer than `m` of the last `n` history samples
with nonzero latency (successes and failures alike, the current sample
included) exceed the effective threshold, the candidate is suppressed:
`check_api` persists no anomaly event and sends nothing, and the rest of
the cycle (history append, hysteresis update) is exactly the
anomaly-free processing. -/
theorem m_of_n_debounce (S : Settings) (now : ℚ) (db : DBState) (res : CheckOutcome)
    (sendOk : Bool) (api : Target) (u : ℤ)
    (htgt : db.target = some api) (hact : api.is_active = true)
    (hucl : db.latest_ucl_ms = some u)
    (hover : overCount (db.history ++ [⟨res.is_ok, res.response_time_ms⟩])
        (effOrN api.anomaly_n S.ANOMALY_N)
        (effectiveThreshold S api (db.history ++ [⟨res.is_ok, res.response_time_ms⟩]) u) <
      effOrN api.anomaly_m S.ANOMALY_M) :
    check_api S now db res sendOk =
      ⟨⟨some (transitionStep S now (refreshMute api now) db.incidents res.is_ok
            (isMuted (refreshMute api now) now) sendOk).target,
        db.history ++ [⟨res.is_ok, res.response_time_ms⟩],
        (transitionStep S now (refreshMute api now) db.incidents res.is_ok
            (isMuted (refreshMute api now) now) sendOk).incidents,
        db.anomalies, db.latest_ucl_ms⟩,
       (transitionStep S now (refreshMute api now) db.incidents res.is_ok
            (isMuted (refreshMute api now) now) sendOk).events,
       (transitionStep S now (refreshMute api now) db.incidents res.is_ok
            (isMuted (refreshMute api now) now) sendOk).delivered⟩ := by
  rw [check_api_active S now db res sendOk api htgt hact, hucl]
  have hsup := anomalyStep_suppressed_of_over_lt S now (refreshMute api now)
    (db.history ++ [CheckHistoryEntry.mk res.is_ok res.response_time_ms]) u db.anomalies res
    (isMuted (refreshMute api now) now) sendOk (by simpa using hover)
  rw [hsup]
  simp

/-- Closed witness for C5: baseline `ucl = 100`, default sensitivity
1.5, percentile factor 0, a first successful 50 ms check — threshold
150, zero of the last five samples exceed it, so nothing but the plain
cycle happens. -/
theorem m_of_n_debounce_witness :
    check_api debounceSettings 0 debounceDB (CheckOutcome.mk true 50) true =
      ⟨⟨some (transitionStep debounceSettings 0 (refreshMute sampleTarget 0)
            debounceDB.incidents (CheckOutcome.mk true 50).is_ok
            (isMuted (refreshMute sampleTarget 0) 0) true).target,
        debounceDB.history ++ [⟨(CheckOutcome.mk true 50).is_ok,
          (CheckOutcome.mk true 50).response_time_ms⟩],
        (transitionStep debounceSettings 0 (refreshMute sampleTarget 0)
            debounceDB.incidents (CheckOutcome.mk true 50).is_ok
            (isMuted (refreshMute sampleTarget 0) 0) true).incidents,
        debounceDB.anomalies, debounceDB.latest_ucl_ms⟩,
       (transitionStep debounceSettings 0 (refreshMute sampleTarget 0)
            debounceDB.incidents (CheckOutcome.mk true 50).is_ok
            (isMuted (refreshMute sampleTarget 0) 0) true).events,
       (transitionStep debounceSettings 0 (refreshMute sampleTarget 0)
            debounceDB.incidents (CheckOutcome.mk true 50).is_ok
            (isMuted (refreshMute sampleTarget 0) 0) true).delivered⟩ :=
  m_of_n_debounce debounceSettings 0 debounceDB (CheckOutcome.mk true 50) true
    sampleTarget 100 rfl rfl rfl
    (by
      have h1 : effectiveThreshold debounceSettings sampleTarget
          (debounceDB.history ++ [⟨(CheckOutcome.mk true 50).is_ok,
            (CheckOutcome.mk true 50).response_time_ms⟩]) 100 = 150 := by
        unfold effectiveThreshold
        norm_num [effOr, sampleTarget, debounceSettings, mul_zero, max_eq_left]
      rw [h1]
      norm_num [overCount, recentPoints, effOrN, sampleTarget, debounceSettings,
        debounceDB, List.filter])

/-- Counterexample to C5 as stated: with `m=3`, `n=5` only 2 of the last
5 SUCCESSFUL samples exceed the threshold 100 (so the spec demands
suppression), yet the code counts the failed 500 ms check as well,
reaches 3 and persists the anomaly event. -/
theorem m_of_n_counterexample :
    effOrN cex5Target.anomaly_m cex5Settings.ANOMALY_M = 3 ∧
    effOrN cex5Target.anomaly_n cex5Settings.ANOMALY_N = 5 ∧
    (detect_anomaly 500 (effectiveThreshold cex5Settings cex5Target cex5Hist 100)).1 =
      true ∧
    overCount_specOkOnly cex5Hist 5
      (effectiveThreshold cex5Settings cex5Target cex5Hist 100) = 2 ∧
    (anomalyStep cex5Settings 7 cex5Target cex5Hist (some 100) []
      (CheckOutcome.mk true 500) false true).records = [⟨7, 500, 400⟩] := by
  have hvals : positiveVals (recentPoints cex5Hist 50) = [500, 50, 50, 500, 500] := by
    decide
  have hc5 : Nat.ceil ((19 : ℚ) / 4) = 5 := by norm_num [Nat.ceil_eq_iff]
  have hp : (robust_stats [500, 50, 50, 500, 500]).p95 = 500 := by
    norm_num [robust_stats, medianQ, List.insertionSort, List.orderedInsert]
    rw [if_neg (List.cons_ne_nil _ _)]
    norm_num [hc5]
  have hthr : effectiveThreshold cex5Settings cex5Target cex5Hist 100 = 100 := by
    unfold effectiveThreshold
    rw [hvals]
    norm_num [hp, effOr, cex5Target, sampleTarget, cex5Settings]
  refine ⟨rfl, rfl, ?_, ?_, ?_⟩
  · rw [hthr]; norm_num [detect_anomaly]
  · rw [hthr]
    norm_num [overCount_specOkOnly, recentPoints, cex5Hist, List.filter]
  · have hfloor : (⌊(400 : ℚ)⌋ : ℤ) = 400 := by
      norm_num [Int.floor_eq_iff]
    unfold anomalyStep
    dsimp only
    rw [hthr]
    norm_num [detect_anomaly, overCount, recentPoints, cex5Hist, effOrN,
      lastAnomalyTime, tooSoon, pyTrunc, trySendEvent, sendBlock, hfloor,
      cex5Target, sampleTarget, cex5Settings, List.filter]

/-! ## C6: cooldown scaling -/

/-- C6 (amended): for a candidate that passed the m-of-n debounce, the
detector suppresses iff the time since the target's previous
AnomalyEvent is less than `ANOMALY_COOLDOWN_MINUTES` scaled by 0.5 when
the ratio exceeds 0.5, by 0.75 when it exceeds 0.25, and by 1 otherwise
— where the ratio is `(latency − threshold) / max(1, threshold)` (the
source divides by `max(1.0, thr)`, not by the raw threshold); with no
previous AnomalyEvent the cooldown never suppresses. -/
theorem cooldown_scaling (S : Settings) (now : ℚ) (api : Target)
    (hist : List CheckHistoryEntry) (u : ℤ) (anoms : List AnomalyRecord)
    (res : CheckOutcome) (muted sendOk : Bool)
    (hml : S.ML_ENABLED = true) (hrt : 0 ≤ res.response_time_ms) (hok : res.is_ok = true)
    (hu : u ≠ 0) (hal : api.anomaly_alerts_enabled = true)
    (hcand : (detect_anomaly res.response_time_ms
      (effectiveThreshold S api hist u)).1 = true)
    (hover : effOrN api.anomaly_m S.ANOMALY_M ≤
      overCount hist (effOrN api.anomaly_n S.ANOMALY_N)
        (effectiveThreshold S api hist u)) :
    (lastAnomalyTime anoms = none →
      (anomalyStep S now api hist (some u) anoms res muted sendOk).records =
        [⟨now, res.response_time_ms,
          pyTrunc (detect_anomaly res.response_time_ms
            (effectiveThreshold S api hist u)).2⟩]) ∧
    (∀ ts, lastAnomalyTime anoms = some ts →
      ((anomalyStep S now api hist (some u) anoms res muted sendOk).records = [] ↔
        now - ts < S.ANOMALY_COOLDOWN_MINUTES * 60 *
          (if 1 / 2 < ((res.response_time_ms : ℚ) - effectiveThreshold S api hist u) /
              max 1 (effectiveThreshold S api hist u) then 1 / 2
           else if 1 / 4 < ((res.response_time_ms : ℚ) - effectiveThreshold S api hist u) /
              max 1 (effectiveThreshold S api hist u) then 3 / 4
           else 1))) := by
  unfold anomalyStep
  rw [if_pos ⟨hml, hrt, hok⟩]
  dsimp only
  rw [if_pos ⟨hu, hal⟩, if_pos hcand, if_neg (Nat.not_lt.mpr hover)]
  constructor
  · intro hnone
    simp [tooSoon, hnone]
  · intro ts hts
    rw [hts]
    by_cases hcase : now - ts < S.ANOMALY_COOLDOWN_MINUTES * 60 *
        cooldownScale res.response_time_ms (effectiveThreshold S api hist u)
    · simp only [tooSoon, decide_eq_true_eq, if_pos hcase]
      simp only [cooldownScale] at hcase
      exact iff_of_true (by simp) hcase
    · simp only [tooSoon, decide_eq_true_eq, if_neg hcase]
      simp only [cooldownScale] at hcase
      refine iff_of_false ?_ hcase
      simp

/-- Closed witness for C6 at the cex6 state (previous anomaly at time 0,
evaluation at time 1500): the suppression test instantiated at `ts = 0`. -/
theorem cooldown_scaling_witness :
    (anomalyStep cex6Settings 1500 cex6Target cex6Hist (some 1) cex6Anoms
        (CheckOutcome.mk true 1) false true).records = [] ↔
      (1500 : ℚ) - 0 < cex6Settings.ANOMALY_COOLDOWN_MINUTES * 60 *
        (if 1 / 2 < (((CheckOutcome.mk true 1).response_time_ms : ℚ) -
              effectiveThreshold cex6Settings cex6Target cex6Hist 1) /
            max 1 (effectiveThreshold cex6Settings cex6Target cex6Hist 1) then 1 / 2
         else if 1 / 4 < (((CheckOutcome.mk true 1).response_time_ms : ℚ) -
              effectiveThreshold cex6Settings cex6Target cex6Hist 1) /
            max 1 (effectiveThreshold cex6Settings cex6Target cex6Hist 1) then 3 / 4
         else 1) :=
  (cooldown_scaling cex6Settings 1500 cex6Target cex6Hist 1 cex6Anoms
    (CheckOutcome.mk true 1) false true rfl (by norm_num) rfl (by norm_num) rfl
    (by
      have h : effectiveThreshold cex6Settings cex6Target cex6Hist 1 = 1 / 2 := by
        unfold effectiveThreshold
        norm_num [effOr, cex6Target, sampleTarget, cex6Settings, mul_zero, max_eq_left]
      rw [h]
      norm_num [detect_anomaly])
    (by
      have h : effectiveThreshold cex6Settings cex6Target cex6Hist 1 = 1 / 2 := by
        unfold effectiveThreshold
        norm_num [effOr, cex6Target, sampleTarget, cex6Settings, mul_zero, max_eq_left]
      rw [h]
      norm_num [overCount, recentPoints, effOrN, cex6Hist, cex6Target, sampleTarget,
        cex6Settings, List.filter])).2 0 rfl

/-- Counterexample to C6 as stated: with threshold 0.5 and latency 1 ms
the claim's ratio `(latency − thr)/thr = 1` exceeds 0.5, so the claim
prescribes cooldown × 0.5 = 1200 s; 1500 s have elapsed since the
previous AnomalyEvent, so the claim forbids suppression — but the code
divides by `max(1.0, thr) = 1`, gets ratio 0.5, scales by 0.75 (1800 s)
and suppresses. -/
theorem cooldown_counterexample :
    (detect_anomaly 1 (effectiveThreshold cex6Settings cex6Target cex6Hist 1)).1 = true ∧
    effOrN cex6Target.anomaly_m cex6Settings.ANOMALY_M ≤
      overCount cex6Hist (effOrN cex6Target.anomaly_n cex6Settings.ANOMALY_N)
        (effectiveThreshold cex6Settings cex6Target cex6Hist 1) ∧
    lastAnomalyTime cex6Anoms = some 0 ∧
    1 / 2 < ((1 : ℚ) - effectiveThreshold cex6Settings cex6Target cex6Hist 1) /
      effectiveThreshold cex6Settings cex6Target cex6Hist 1 ∧
    ¬((1500 : ℚ) - 0 < cex6Settings.ANOMALY_COOLDOWN_MINUTES * 60 * (1 / 2)) ∧
    (anomalyStep cex6Settings 1500 cex6Target cex6Hist (some 1) cex6Anoms
      (CheckOutcome.mk true 1) false true).records = [] := by
  have hthr : effectiveThreshold cex6Settings cex6Target cex6Hist 1 = 1 / 2 := by
    unfold effectiveThreshold
    norm_num [effOr, cex6Target, sampleTarget, cex6Settings, mul_zero, max_eq_left]
  refine ⟨?_, ?_, rfl, ?_, ?_, ?_⟩
  · rw [hthr]; norm_num [detect_anomaly]
  · rw [hthr]
    norm_num [overCount, recentPoints, effOrN, cex6Hist, cex6Target, sampleTarget,
      cex6Settings, List.filter]
  · rw [hthr]; norm_num
  · norm_num [cex6Settings]
  · unfold anomalyStep
    dsimp only
    rw [hthr]
    norm_num [detect_anomaly, overCount, recentPoints, cex6Hist, effOrN,
      lastAnomalyTime, cex6Anoms, tooSoon, cooldownScale, cex6Target, sampleTarget,
      cex6Settings, List.filter]

end ApiMonitor
